import Mathlib

/-!
Verification of the generation-loop engine of the rChatbot repository
(src/main.rs), shallowly embedded in Lean.

The embedding translates `TextGeneration::new`, `TextGeneration::run`
(prefill, decode loop, repeat-penalty dispatch, end-of-sequence handling)
and the interactive loop of `main`.  External collaborators (the model
forward pass, the tokenizer and its streaming `TokenOutputStream`, the
`LogitsProcessor` sampler, and `apply_repeat_penalty`) are abstracted as
fields of a `Collab` structure, exactly at the call boundary the Rust code
uses; fallible calls return `Except String`, mirroring the `?` operator.
Token ids are `Nat` (Rust `u32`), score vectors are lists of `ℚ`
(the Rust code only ever compares scores for equality with `1.0` and
order against `0.`, both exact).
-/

namespace Chatbot

/-- Token ids, as produced by `Tokenizer::encode` (`u32` in Rust). -/
abbrev Token := Nat

/-- A vector of per-vocabulary-entry scores (`Tensor` of `f32` in Rust). -/
abbrev Logits := List ℚ

/-- The `candle_transformers::generation::Sampling` policy enum, as used by
`TextGeneration::new`. -/
inductive Sampling where
  | ArgMax : Sampling
  | All (temperature : ℚ) : Sampling
  | TopK (k : Nat) (temperature : ℚ) : Sampling
  | TopP (p : ℚ) (temperature : ℚ) : Sampling
  | TopKThenTopP (k : Nat) (p : ℚ) (temperature : ℚ) : Sampling
deriving DecidableEq, Repr

/-- The temperature carried by a stochastic sampling variant; `none` for the
deterministic `ArgMax` variant. -/
def Sampling.temp? : Sampling → Option ℚ
  | Sampling.ArgMax => none
  | Sampling.All t => some t
  | Sampling.TopK _ t => some t
  | Sampling.TopP _ t => some t
  | Sampling.TopKThenTopP _ _ t => some t

/-- External collaborators of the generation engine, abstracted at the exact
call boundary used by `src/main.rs`:

* `encode` — `Tokenizer::encode(prompt, true)` followed by `get_ids`;
* `get_token` — `TokenOutputStream::get_token`, used to resolve `"</s>"`;
* `decInit` — a fresh / cleared `TokenOutputStream` streaming state
  (`TokenOutputStream::new` and `clear` both yield it);
* `next_token` / `decode_rest` — the streaming decoder calls;
* `from_sampling` — `LogitsProcessor::from_sampling(seed, sampling)`;
* `sample` — `LogitsProcessor::sample`, threading its rng state;
* `forward` — the model forward pass (`Model::Mistral` or
  `Model::Quantized`), threading the model-side cache state `M`;
* `apply_repeat_penalty` — `candle_transformers::utils::apply_repeat_penalty`.

`M`, `S`, `D` are the opaque state types of the model cache, the sampler rng
and the streaming decoder. -/
structure Collab (M S D : Type) where
  encode : String → Except String (List Token)
  get_token : String → Option Token
  decInit : D
  next_token : D → Token → Except String (D × Option String)
  decode_rest : D → Except String (Option String)
  from_sampling : Nat → Sampling → S
  sample : S → Logits → Except String (S × Token)
  forward : M → List Token → Nat → Except String (M × Logits)
  apply_repeat_penalty : Logits → ℚ → List Token → Except String Logits

/-- The sampling-relevant command-line options of `Args` (the remaining CLI
fields select model files and devices, which are outside the generation
engine). Defaults follow the `clap` attributes in `src/main.rs`. -/
structure Args where
  seed : Nat
  temperature : Option ℚ
  top_p : Option ℚ
  top_k : Option Nat
  sample_len : Nat
  repeat_penalty : ℚ
  repeat_last_n : Nat

/-- The sampling-policy selection inside `TextGeneration::new`:
`temp.unwrap_or(0.)`, then `ArgMax` whenever `temperature <= 0.`, otherwise a
match on `(top_k, top_p)`. -/
def chooseSampling (temp : Option ℚ) (top_k : Option Nat) (top_p : Option ℚ) :
    Sampling :=
  let temperature := temp.getD 0
  if temperature ≤ 0 then Sampling.ArgMax
  else
    match top_k, top_p with
    | none, none => Sampling.All temperature
    | some k, none => Sampling.TopK k temperature
    | none, some p => Sampling.TopP p temperature
    | some k, some p => Sampling.TopKThenTopP k p temperature

/-- The per-session `TextGeneration` state (the `model` field is threaded
separately, since Rust holds it as a mutable borrow). -/
structure TextGeneration (S D : Type) where
  tokenizer : D
  logits_processor : S
  repeat_penalty : ℚ
  repeat_last_n : Nat

/-- `TextGeneration::new`: builds the sampler from the chosen policy and wraps
a fresh `TokenOutputStream` over a clone of the tokenizer. Total: the Rust
constructor has no error path. -/
def TextGeneration.new {M S D : Type} (C : Collab M S D) (a : Args) :
    TextGeneration S D :=
  { tokenizer := C.decInit
    logits_processor :=
      C.from_sampling a.seed (chooseSampling a.temperature a.top_k a.top_p)
    repeat_penalty := a.repeat_penalty
    repeat_last_n := a.repeat_last_n }

/-- `let context_size = if index > 0 { 1 } else { tokens.len() };` -/
def context_size (index : Nat) (len : Nat) : Nat :=
  if index > 0 then 1 else len

/-- `let start_pos = tokens.len().saturating_sub(context_size);`
(`Nat` subtraction is saturating, exactly like `saturating_sub`). -/
def start_pos (index : Nat) (len : Nat) : Nat :=
  len - context_size index len

/-- `let ctxt = &tokens[start_pos..];` -/
def ctxt (index : Nat) (tokens : List Token) : List Token :=
  tokens.drop (start_pos index tokens.length)

/-- `let start_at = tokens.len().saturating_sub(self.repeat_last_n);` -/
def start_at (repeat_last_n : Nat) (tokens : List Token) : Nat :=
  tokens.length - repeat_last_n

/-- `&tokens[start_at..]` — the history tail handed to the repeat-penalty
transform. -/
def penaltyContext (repeat_last_n : Nat) (tokens : List Token) : List Token :=
  tokens.drop (start_at repeat_last_n tokens)

/-- The repeat-penalty dispatch in the decode loop:
`if self.repeat_penalty == 1. { logits } else { apply_repeat_penalty(...)? }`. -/
def penalizedLogits {M S D : Type} (C : Collab M S D) (rp : ℚ)
    (rln : Nat) (tokens : List Token) (logits : Logits) :
    Except String Logits :=
  if rp = 1 then Except.ok logits
  else C.apply_repeat_penalty logits rp (penaltyContext rln tokens)

/-- The mutable state of one decode loop: the model cache, sampler rng and
streaming-decoder states, the token history `tokens`, the
`generated_tokens` counter, the text fragments printed so far, and a count
of loop iterations executed (for the step bound). -/
structure LoopState (M S D : Type) where
  model : M
  sampler : S
  dec : D
  tokens : List Token
  generated : Nat
  out : List String
  steps : Nat

/-- One iteration of the decode loop of `TextGeneration::run` at index
`index`: forward the context window, apply the repeat-penalty dispatch,
sample, push the token and bump `generated_tokens`; on the end-of-sequence
token break (second component `true`) without feeding the token to the
streaming decoder, otherwise feed it and emit any fragment. Each `match` on
an `Except` mirrors a `?` in the Rust code. -/
def decodeStep {M S D : Type} (C : Collab M S D) (rp : ℚ) (rln : Nat)
    (eos : Token) (index : Nat) (st : LoopState M S D) :
    Except String (LoopState M S D × Bool) :=
  match C.forward st.model (ctxt index st.tokens)
      (start_pos index st.tokens.length) with
  | Except.error e => Except.error e
  | Except.ok (m', rawLogits) =>
    match penalizedLogits C rp rln st.tokens rawLogits with
    | Except.error e => Except.error e
    | Except.ok logits =>
      match C.sample st.sampler logits with
      | Except.error e => Except.error e
      | Except.ok (s', next_tok) =>
        if next_tok = eos then
          Except.ok
            ({ st with
                model := m', sampler := s',
                tokens := st.tokens ++ [next_tok],
                generated := st.generated + 1,
                steps := st.steps + 1 }, true)
        else
          match C.next_token st.dec next_tok with
          | Except.error e => Except.error e
          | Except.ok (d', frag) =>
            Except.ok
              ({ model := m', sampler := s', dec := d',
                 tokens := st.tokens ++ [next_tok],
                 generated := st.generated + 1,
                 out := match frag with
                   | some t => st.out ++ [t]
                   | none => st.out
                 steps := st.steps + 1 }, false)

/-- `for index in 0..sample_len { ... }` with the `break` on end-of-sequence:
`fuel` is the number of remaining indices, so the loop is entered with
`index = 0` and `fuel = sample_len`. -/
def runLoop {M S D : Type} (C : Collab M S D) (rp : ℚ) (rln : Nat)
    (eos : Token) : Nat → Nat → LoopState M S D →
    Except String (LoopState M S D)
  | _, 0, st => Except.ok st
  | index, fuel + 1, st =>
    match decodeStep C rp rln eos index st with
    | Except.error e => Except.error e
    | Except.ok (st', brk) =>
      if brk then Except.ok st' else runLoop C rp rln eos (index + 1) fuel st'

/-- The prompt-echo phase of `TextGeneration::run`: each prompt token is fed
through the streaming decoder and any resulting fragment printed. -/
def prefill {M S D : Type} (C : Collab M S D) :
    D → List Token → List String → Except String (D × List String)
  | d, [], out => Except.ok (d, out)
  | d, t :: ts, out =>
    match C.next_token d t with
    | Except.error e => Except.error e
    | Except.ok (d', frag) =>
      prefill C d' ts
        (match frag with
          | some s => out ++ [s]
          | none => out)

/-- The observable outcome of one successful `TextGeneration::run`: the final
model cache state, every printed text fragment in order, the
`generated_tokens` count reported by the summary line, the number of decode
iterations executed, and the final token history. -/
structure RunResult (M : Type) where
  model : M
  out : List String
  generated_tokens : Nat
  steps : Nat
  tokens : List Token
deriving Repr

/-- `TextGeneration::run(prompt, sample_len)`: clear the streaming decoder,
encode the prompt, echo it through the decoder, resolve the `"</s>"` token
(bailing if absent), run the decode loop, and flush `decode_rest`. -/
def TextGeneration.run {M S D : Type} (C : Collab M S D)
    (tg : TextGeneration S D) (m : M) (prompt : String) (sample_len : Nat) :
    Except String (RunResult M) :=
  match C.encode prompt with
  | Except.error e => Except.error e
  | Except.ok tokens =>
    match prefill C C.decInit tokens [] with
    | Except.error e => Except.error e
    | Except.ok (d1, out1) =>
      match C.get_token ("</s>") with
      | none => Except.error ("cannot find the </s> token")
      | some eos =>
        match runLoop C tg.repeat_penalty tg.repeat_last_n eos 0 sample_len
            { model := m, sampler := tg.logits_processor, dec := d1,
              tokens := tokens, generated := 0, out := out1, steps := 0 } with
        | Except.error e => Except.error e
        | Except.ok stF =>
          match C.decode_rest stF.dec with
          | Except.error e => Except.error e
          | Except.ok rest =>
            Except.ok
              { model := stF.model
                out := match rest with
                  | some s => stF.out ++ [s]
                  | none => stF.out
                generated_tokens := stF.generated
                steps := stF.steps
                tokens := stF.tokens }

/-- The interactive loop of `main`: each iteration constructs a fresh
`TextGeneration` over the same mutable model and runs one session;
`pipeline.run(&msg_cpy, args.sample_len)?` propagates a session error out of
the loop. The unbounded `loop` over stdin lines is embedded as structural
recursion over the list of prompts the user enters. -/
def mainLoop {M S D : Type} (C : Collab M S D) (a : Args) :
    M → List String → Except String M
  | m, [] => Except.ok m
  | m, p :: ps =>
    match TextGeneration.run C (TextGeneration.new C a) m p a.sample_len with
    | Except.error e => Except.error e
    | Except.ok r => mainLoop C a r.model ps

/-! Concrete collaborators, used to evaluate the embedding on closed inputs.
The model cache state is a `Nat` counting the tokens the model has consumed;
the streaming-decoder state is a `Nat` counting the tokens it was fed; the
sampler rng state is `Unit` (the sample function is a pure function of the
logits). The `"</s>"` token id is `2`. -/

/-- A concrete collaborator whose sampler is the pure function `sampleFn`. -/
def testCollab (sampleFn : Logits → Token) : Collab Nat Unit Nat :=
  { encode := fun _ => Except.ok [7, 8]
    get_token := fun s => if s = "</s>" then some 2 else none
    decInit := 0
    next_token := fun d t => Except.ok (d + 1, some (toString t))
    decode_rest := fun _ => Except.ok none
    from_sampling := fun _ _ => ()
    sample := fun s l => Except.ok (s, sampleFn l)
    forward := fun m c _ => Except.ok (m + c.length, [3, 1, 4])
    apply_repeat_penalty := fun l _ _ => Except.ok (l.map (fun x => x + 1))
  }

/-- Collaborator whose sampler always picks token `0` (never end-of-sequence):
the decode loop can only stop at the step bound. -/
def noEosCollab : Collab Nat Unit Nat := testCollab (fun _ => 0)

/-- Collaborator whose sampler always picks token `2`, the `"</s>"` id: the
end-of-sequence token is sampled on the very first decode step. -/
def eosCollab : Collab Nat Unit Nat := testCollab (fun _ => 2)

/-- Collaborator whose model forward pass always fails, as a model-side
resource error would. -/
def failCollab : Collab Nat Unit Nat :=
  { testCollab (fun _ => 0) with
    forward := fun _ _ _ => Except.error ("forward failed") }

/-- Default-flavoured `Args`: seed and `sample_len` as in the clap defaults,
`repeat_penalty` set to `1` so the penalty dispatch takes the no-op path. -/
def defaultArgs : Args :=
  { seed := 299792458
    temperature := none
    top_p := none
    top_k := none
    sample_len := 4
    repeat_penalty := 1
    repeat_last_n := 64 }

/-! Helper lemmas shared by the claim theorems. -/

/-- Dropping all but the final element of a list leaves exactly the final
element (and nothing for the empty list). -/
theorem drop_pred_length {α : Type} (l : List α) :
    l.drop (l.length - 1) = l.getLast?.toList := by
  induction l with
  | nil => rfl
  | cons a t ih =>
    cases t with
    | nil => rfl
    | cons b t2 =>
      rw [List.getLast?_cons_cons]
      have hlen : (a :: b :: t2).length - 1 = (b :: t2).length - 1 + 1 := by
        simp [List.length_cons]
      rw [hlen, List.drop_succ_cons, ← ih]

/-- Claim C7: for every history and every `repeat_last_n`, the tail handed to
the repeat-penalty transform starts at an in-bounds index (the saturating
subtraction never exceeds the length, so the Rust slice cannot panic) and is
exactly the last `min repeat_last_n L` tokens of the history: a suffix of
that length. -/
theorem C7_penalty_tail_in_bounds (rln : Nat) (tokens : List Token) :
    start_at rln tokens ≤ tokens.length ∧
    (penaltyContext rln tokens).length = min rln tokens.length ∧
    (penaltyContext rln tokens).IsSuffix tokens := by
  refine ⟨Nat.sub_le _ _, ?_, List.drop_suffix _ _⟩
  simp only [penaltyContext, start_at, List.length_drop]
  omega

/-- Claim C6: with `repeat_penalty == 1.0` the logits handed to the sampler
are the raw model logits, element-wise unchanged, and the repeat-penalty
transform is not invoked at all: a decode step behaves identically no matter
what function is installed as `apply_repeat_penalty`. -/
theorem C6_penalty_one_noop {M S D : Type} (C : Collab M S D)
    (g : Logits → ℚ → List Token → Except String Logits)
    (rp : ℚ) (h : rp = 1) (rln : Nat) (tokens : List Token) (logits : Logits)
    (eos : Token) (index : Nat) (st : LoopState M S D) :
    penalizedLogits C rp rln tokens logits = Except.ok logits ∧
    decodeStep { C with apply_repeat_penalty := g } rp rln eos index st =
      decodeStep C rp rln eos index st := by
  subst h
  constructor
  · simp [penalizedLogits]
  · simp [decodeStep, penalizedLogits]

/-- Claim C6 witness: evaluated with a concrete collaborator whose installed
transform shifts every logit by one, the dispatch still returns the raw
logits. -/
theorem C6_witness :
    penalizedLogits noEosCollab 1 64 [7, 8] [3, 1, 4] = Except.ok [3, 1, 4] ∧
    decodeStep { noEosCollab with
        apply_repeat_penalty := fun l _ _ => Except.ok (l.map (fun x => x + 2)) }
        1 64 2 0
        { model := 0, sampler := (), dec := 0, tokens := [7, 8],
          generated := 0, out := [], steps := 0 } =
      decodeStep noEosCollab 1 64 2 0
        { model := 0, sampler := (), dec := 0, tokens := [7, 8],
          generated := 0, out := [], steps := 0 } :=
  C6_penalty_one_noop noEosCollab _ 1 rfl 64 [7, 8] [3, 1, 4] 2 0 _

/-- Claim C5: whenever the temperature option is unset or non-positive,
`TextGeneration::new` selects the deterministic `ArgMax` policy, for every
choice of the top-k and top-p options. -/
theorem C5_argmax_when_temp_nonpos (temp : Option ℚ) (top_k : Option Nat)
    (top_p : Option ℚ)
    (h : temp = none ∨ ∃ t, temp = some t ∧ t ≤ 0) :
    chooseSampling temp top_k top_p = Sampling.ArgMax := by
  rcases h with h | ⟨t, rfl, ht⟩
  · subst h
    simp [chooseSampling]
  · simp [chooseSampling, Option.getD, ht]

/-- Claim C5 witness: a negative temperature together with both top-k and
top-p set still yields `ArgMax`. -/
theorem C5_witness :
    chooseSampling (some (-1)) (some 3) (some (1 / 2)) = Sampling.ArgMax :=
  C5_argmax_when_temp_nonpos (some (-1)) (some 3) (some (1 / 2))
    (Or.inr ⟨-1, rfl, by norm_num⟩)

/-- Claim C4 counterexample: constructing a session with temperature `-1`
and stochastic options set does not fail — `TextGeneration::new` is a total
function with no error path — it silently yields the deterministic `ArgMax`
policy instead of reporting an invalid policy. -/
theorem C4_counterexample :
    TextGeneration.new noEosCollab
        { defaultArgs with
            temperature := some (-1), top_k := some 3, top_p := some (1 / 2) } =
      { tokenizer := 0, logits_processor := (),
        repeat_penalty := 1, repeat_last_n := 64 } ∧
    chooseSampling (some (-1)) (some 3) (some (1 / 2)) = Sampling.ArgMax := by
  constructor
  · rfl
  · norm_num [chooseSampling]

/-- Claim C4 (amended): session construction never fails; instead of raising
an invalid-policy error, `TextGeneration::new` never constructs a
non-deterministic variant with non-positive temperature — every stochastic
policy it selects carries a strictly positive temperature. -/
theorem C4_amended_no_invalid_policy (temp : Option ℚ) (top_k : Option Nat)
    (top_p : Option ℚ) (t : ℚ)
    (h : (chooseSampling temp top_k top_p).temp? = some t) : 0 < t := by
  by_cases hle : temp.getD 0 ≤ 0
  · simp [chooseSampling, hle, Sampling.temp?] at h
  · have hpos : 0 < temp.getD 0 := lt_of_not_le hle
    rcases top_k with _ | k <;> rcases top_p with _ | p <;>
      simp only [chooseSampling, hle, if_false, Sampling.temp?,
        Option.some.injEq] at h <;>
      linarith

/-- Claim C4 witness: at temperature `2` with no top-k/top-p, the selected
policy is `All 2`, and the theorem yields `0 < 2`. -/
theorem C4_amended_witness :
    (chooseSampling (some 2) none none).temp? = some 2 ∧ (0 : ℚ) < 2 :=
  ⟨by norm_num [chooseSampling, Sampling.temp?],
   C4_amended_no_invalid_policy (some 2) none none 2
     (by norm_num [chooseSampling, Sampling.temp?])⟩

/-- Claim C1: the context window handed to the model forward call is the
entire token history at step 0 and exactly the single most-recently-appended
token at every later step, and the position offset is the history length
minus the context size (zero at step 0, history length minus one later). -/
theorem C1_context_window (index : Nat) (tokens : List Token) :
    ctxt 0 tokens = tokens ∧
    start_pos 0 tokens.length = 0 ∧
    (0 < index → ctxt index tokens = tokens.getLast?.toList) ∧
    (0 < index → start_pos index tokens.length = tokens.length - 1) ∧
    start_pos index tokens.length =
      tokens.length - context_size index tokens.length := by
  refine ⟨?_, ?_, ?_, ?_, rfl⟩
  · simp [ctxt, start_pos, context_size]
  · simp [start_pos, context_size]
  · intro hi
    rw [ctxt, start_pos, context_size, if_pos hi]
    exact drop_pred_length tokens
  · intro hi
    rw [start_pos, context_size, if_pos hi]

/-- Claim C1 witness: on the two-token history `[5, 6]`, step 1 sees the
context `[6]` at offset `1`. -/
theorem C1_witness :
    ctxt 1 [5, 6] = ([5, 6] : List Token).getLast?.toList ∧
    start_pos 1 ([5, 6] : List Token).length =
      ([5, 6] : List Token).length - 1 :=
  ⟨(C1_context_window 1 [5, 6]).2.2.1 (by norm_num),
   (C1_context_window 1 [5, 6]).2.2.2.1 (by norm_num)⟩

/-- A decode step that samples the end-of-sequence token appends it to the
history, bumps the counter once, leaves the streaming-decoder state and the
emitted fragments untouched, and reports a break. -/
theorem decodeStep_eos {M S D : Type} (C : Collab M S D) (rp : ℚ) (rln : Nat)
    (eos : Token) (index : Nat) (st : LoopState M S D)
    (m' : M) (raw lg : Logits) (s' : S)
    (hf : C.forward st.model (ctxt index st.tokens)
      (start_pos index st.tokens.length) = Except.ok (m', raw))
    (hp : penalizedLogits C rp rln st.tokens raw = Except.ok lg)
    (hs : C.sample st.sampler lg = Except.ok (s', eos)) :
    decodeStep C rp rln eos index st =
      Except.ok
        ({ st with
            model := m', sampler := s',
            tokens := st.tokens ++ [eos],
            generated := st.generated + 1,
            steps := st.steps + 1 }, true) := by
  simp [decodeStep, hf, hp, hs]

/-- Claim C9: when the sampler returns the end-of-sequence token, the token
is appended to the history and counted as generated before the loop breaks,
but the streaming decoder state and the emitted text are exactly as before
the step — the token is never fed to the decoder and its surface text is
never emitted. -/
theorem C9_eos_not_decoded {M S D : Type} (C : Collab M S D) (rp : ℚ)
    (rln : Nat) (eos : Token) (index : Nat) (st : LoopState M S D)
    (m' : M) (raw lg : Logits) (s' : S)
    (hf : C.forward st.model (ctxt index st.tokens)
      (start_pos index st.tokens.length) = Except.ok (m', raw))
    (hp : penalizedLogits C rp rln st.tokens raw = Except.ok lg)
    (hs : C.sample st.sampler lg = Except.ok (s', eos)) :
    decodeStep C rp rln eos index st =
      Except.ok
        ({ model := m', sampler := s', dec := st.dec,
            tokens := st.tokens ++ [eos],
            generated := st.generated + 1,
            out := st.out,
            steps := st.steps + 1 }, true) :=
  decodeStep_eos C rp rln eos index st m' raw lg s' hf hp hs

/-- Claim C9 witness: with the collaborator that always samples the
`"</s>"` id `2`, a concrete decode step breaks with the history extended by
`2`, the counter at `1`, and no new text fragment. -/
theorem C9_witness :
    decodeStep eosCollab 1 64 2 0
      { model := 0, sampler := (), dec := 5, tokens := [7, 8],
        generated := 0, out := ["7", "8"], steps := 0 } =
      Except.ok
        ({ model := 2, sampler := (), dec := 5, tokens := [7, 8, 2],
            generated := 1, out := ["7", "8"], steps := 1 }, true) :=
  C9_eos_not_decoded eosCollab 1 64 2 0
    { model := 0, sampler := (), dec := 5, tokens := [7, 8],
      generated := 0, out := ["7", "8"], steps := 0 }
    2 [3, 1, 4] [3, 1, 4] () rfl rfl rfl

/-- Every successful decode step advances the step counter by exactly one. -/
theorem decodeStep_steps {M S D : Type} (C : Collab M S D) (rp : ℚ)
    (rln : Nat) (eos : Token) (index : Nat) (st st' : LoopState M S D)
    (b : Bool) (h : decodeStep C rp rln eos index st = Except.ok (st', b)) :
    st'.steps = st.steps + 1 := by
  unfold decodeStep at h
  repeat' split at h
  all_goals simp_all
  all_goals (obtain ⟨h1, h2⟩ := h; subst h1; rfl)

/-- The decode loop with `fuel` remaining indices advances the step counter
by at most `fuel`. -/
theorem runLoop_steps {M S D : Type} (C : Collab M S D) (rp : ℚ)
    (rln : Nat) (eos : Token) :
    ∀ (fuel index : Nat) (st st' : LoopState M S D),
      runLoop C rp rln eos index fuel st = Except.ok st' →
      st'.steps ≤ st.steps + fuel := by
  intro fuel
  induction fuel with
  | zero =>
    intro index st st' h
    unfold runLoop at h
    cases h
    omega
  | succ n ih =>
    intro index st st' h
    unfold runLoop at h
    cases hd : decodeStep C rp rln eos index st with
    | error e => rw [hd] at h; cases h
    | ok p =>
      obtain ⟨st2, brk⟩ := p
      rw [hd] at h
      have hstep := decodeStep_steps C rp rln eos index st st2 brk hd
      cases brk with
      | true =>
        simp only [if_true] at h
        cases h
        omega
      | false =>
        simp only [if_false] at h
        have := ih (index + 1) st2 st' h
        omega

/-- Claim C8: for every prompt and every `sample_len`, a successful run of
`TextGeneration::run` executes at most `sample_len` decode iterations (the
loop is a total function, so it terminates even when the end-of-sequence
token is never sampled). -/
theorem C8_step_bound {M S D : Type} (C : Collab M S D)
    (tg : TextGeneration S D) (m : M) (prompt : String) (sample_len : Nat)
    (r : RunResult M)
    (h : TextGeneration.run C tg m prompt sample_len = Except.ok r) :
    r.steps ≤ sample_len := by
  unfold TextGeneration.run at h
  cases henc : C.encode prompt with
  | error e => simp only [henc] at h; cases h
  | ok tokens =>
    simp only [henc] at h
    cases hpre : prefill C C.decInit tokens [] with
    | error e => simp only [hpre] at h; cases h
    | ok p =>
      obtain ⟨d1, out1⟩ := p
      simp only [hpre] at h
      cases heos : C.get_token ("</s>") with
      | none => simp only [heos] at h; cases h
      | some eos =>
        simp only [heos] at h
        cases hloop : runLoop C tg.repeat_penalty tg.repeat_last_n eos 0
            sample_len
            { model := m, sampler := tg.logits_processor, dec := d1,
              tokens := tokens, generated := 0, out := out1, steps := 0 } with
        | error e => simp only [hloop] at h; cases h
        | ok stF =>
          simp only [hloop] at h
          cases hrest : C.decode_rest stF.dec with
          | error e => simp only [hrest] at h; cases h
          | ok rest =>
            simp only [hrest] at h
            cases h
            have := runLoop_steps C tg.repeat_penalty tg.repeat_last_n eos
              sample_len 0 _ stF hloop
            simpa using this

/-- Claim C8 witness: with the collaborator that never samples the
end-of-sequence token and `sample_len = 3`, the run stops after exactly 3
steps, within the bound. -/
theorem C8_witness :
    ({ model := 4, out := ["7", "8", "0", "0", "0"], generated_tokens := 3,
       steps := 3, tokens := [7, 8, 0, 0, 0] } : RunResult Nat).steps ≤ 3 :=
  C8_step_bound noEosCollab (TextGeneration.new noEosCollab defaultArgs)
    0 "Hello" 3 _ rfl

/-- Claim C2 counterexample: with a collaborator whose sampler ranks the
`"</s>"` token highest already on decode step 0, the run indeed emits no
generated-token text fragment (the output is exactly the echoed prompt
tokens), but the summary reports `1` generated token, not `0`: the counter
is incremented before the end-of-sequence check breaks the loop. -/
theorem C2_counterexample :
    TextGeneration.run eosCollab (TextGeneration.new eosCollab defaultArgs)
        0 "Hello" 10 =
      Except.ok
        { model := 2, out := ["7", "8"], generated_tokens := 1,
          steps := 1, tokens := [7, 8, 2] } ∧
    (1 : Nat) ≠ 0 :=
  ⟨rfl, one_ne_zero⟩

/-- Claim C2 (amended): if the sampler returns the end-of-sequence token on
the very first decode step, the session produces zero generated-token text
fragments — the printed output is the prompt echo plus the final
`decode_rest` flush — and the final summary reports `1` generated token (the
end-of-sequence token itself is counted before the loop breaks). -/
theorem C2_amended_eos_first_step {M S D : Type} (C : Collab M S D)
    (tg : TextGeneration S D) (m : M) (prompt : String) (n : Nat)
    (hn : 0 < n) (tokens : List Token) (d1 : D) (out1 : List String)
    (eos : Token) (m' : M) (raw lg : Logits) (s' : S) (rest : Option String)
    (henc : C.encode prompt = Except.ok tokens)
    (hpre : prefill C C.decInit tokens [] = Except.ok (d1, out1))
    (heos : C.get_token ("</s>") = some eos)
    (hf : C.forward m (ctxt 0 tokens) (start_pos 0 tokens.length) =
      Except.ok (m', raw))
    (hp : penalizedLogits C tg.repeat_penalty tg.repeat_last_n tokens raw =
      Except.ok lg)
    (hs : C.sample tg.logits_processor lg = Except.ok (s', eos))
    (hrest : C.decode_rest d1 = Except.ok rest) :
    TextGeneration.run C tg m prompt n =
      Except.ok
        { model := m', out := out1 ++ rest.toList, generated_tokens := 1,
          steps := 1, tokens := tokens ++ [eos] } := by
  obtain ⟨k, rfl⟩ := Nat.exists_eq_add_of_lt hn
  unfold TextGeneration.run
  simp only [henc, hpre, heos]
  rw [show 0 + k + 1 = k + 1 by omega]
  unfold runLoop
  rw [decodeStep_eos C tg.repeat_penalty tg.repeat_last_n eos 0
    { model := m, sampler := tg.logits_processor, dec := d1,
      tokens := tokens, generated := 0, out := out1, steps := 0 }
    m' raw lg s' hf hp hs]
  simp only [if_true]
  rw [hrest]
  cases rest <;> simp [Option.toList]

/-- Claim C2 witness: the amended statement evaluated on the concrete
end-of-sequence-first collaborator. -/
theorem C2_witness :
    TextGeneration.run eosCollab (TextGeneration.new eosCollab defaultArgs)
        0 "Hello" 10 =
      Except.ok
        { model := 2, out := ["7", "8"] ++ (none : Option String).toList,
          generated_tokens := 1, steps := 1, tokens := [7, 8] ++ [2] } :=
  C2_amended_eos_first_step eosCollab
    (TextGeneration.new eosCollab defaultArgs) 0 "Hello" 10 (by norm_num)
    [7, 8] 2 ["7", "8"] 2 2 [3, 1, 4] [3, 1, 4] () none
    rfl rfl rfl rfl rfl rfl rfl

/-- Claim C3 counterexample: with a collaborator whose model forward pass
fails, the interactive loop over the two prompts `["hi", "there"]` does not
go on to the second prompt — the session error propagates out of the loop
(the `?` on `pipeline.run` in `main`), terminating it with the error. -/
theorem C3_counterexample :
    mainLoop failCollab defaultArgs 0 ["hi", "there"] =
      Except.error ("forward failed") :=
  rfl

/-- Claim C3 (amended): a tokenizer or model-forward failure during a
generation session propagates out of the interactive loop: whenever a
session fails with error `e`, the whole loop fails with `e` and no further
prompt is processed (the process terminates with the error, rather than
offering a new prompt). -/
theorem C3_amended_error_aborts_loop {M S D : Type} (C : Collab M S D)
    (a : Args) (m : M) (p : String) (ps : List String) (e : String)
    (h : TextGeneration.run C (TextGeneration.new C a) m p a.sample_len =
      Except.error e) :
    mainLoop C a m (p :: ps) = Except.error e := by
  unfold mainLoop
  rw [h]

/-- Claim C3 witness: the amended statement evaluated on the failing
collaborator with one further prompt pending. -/
theorem C3_witness :
    mainLoop failCollab defaultArgs 0 ["solo", "pending"] =
      Except.error ("forward failed") :=
  C3_amended_error_aborts_loop failCollab defaultArgs 0 "solo" ["pending"]
    ("forward failed") rfl

/-- Claim C10: across consecutive sessions of the interactive loop, the
model state returned by one session is passed unchanged into the rest of
the loop — no operation resets it — while each iteration constructs its
`TextGeneration` afresh: a cleared streaming-decoder state and a sampler
freshly built from the configured seed and policy. -/
theorem C10_model_state_carries_over {M S D : Type} (C : Collab M S D)
    (a : Args) (m : M) (p : String) (ps : List String) (r : RunResult M)
    (h : TextGeneration.run C (TextGeneration.new C a) m p a.sample_len =
      Except.ok r) :
    mainLoop C a m (p :: ps) = mainLoop C a r.model ps ∧
    (TextGeneration.new C a).tokenizer = C.decInit ∧
    (TextGeneration.new C a).logits_processor =
      C.from_sampling a.seed
        (chooseSampling a.temperature a.top_k a.top_p) := by
  refine ⟨?_, rfl, rfl⟩
  simp only [mainLoop, h]

/-- Claim C10 witness: after a first session that leaves the model cache
counter at `5`, the remainder of the loop behaves exactly as if started at
`5`. -/
theorem C10_witness :
    mainLoop noEosCollab defaultArgs 0 ["a", "b"] =
      mainLoop noEosCollab defaultArgs
        ({ model := 5, out := ["7", "8", "0", "0", "0", "0"],
           generated_tokens := 4, steps := 4,
           tokens := [7, 8, 0, 0, 0, 0] } : RunResult Nat).model ["b"] ∧
    (TextGeneration.new noEosCollab defaultArgs).tokenizer =
      noEosCollab.decInit ∧
    (TextGeneration.new noEosCollab defaultArgs).logits_processor =
      noEosCollab.from_sampling defaultArgs.seed
        (chooseSampling defaultArgs.temperature defaultArgs.top_k
          defaultArgs.top_p) :=
  C10_model_state_carries_over noEosCollab defaultArgs 0 "a" ["b"] _ rfl

end Chatbot
